import Mathlib

/-!
Verification of the analytics-agent repository (Python) against its
natural-language specification, via a shallow embedding in Lean 4.

Conventions used throughout:
* Python strings are Lean `String`s; `len` is `String.length`
  (character count, matching Python for the ASCII data handled here).
* Python dictionaries are association lists `List (String × _)`; the
  repository builds its dictionaries with distinct literal keys, and
  lookup returns the first binding.
* Python truthiness and `str()` are modelled on a small universe `PyVal`
  of JSON scalar values (the values the handlers actually inspect).
* Machine-dependent effects (AWS SDK calls, sockets, exceptions raised
  by external libraries) are modelled as explicit oracle parameters:
  a function is given the outcome of the external call and we prove
  facts about what the surrounding code does with it.
-/

set_option maxRecDepth 8192

namespace AwsDemo

/-! ### String utilities (Python `str.lower`, `in`, `strip`, `rstrip`) -/

/-- ASCII lowercase of one character, as Python `str.lower` acts on the
ASCII strings appearing in this repository. -/
def pyLowerChar (c : Char) : Char :=
  if 'A' ≤ c ∧ c ≤ 'Z' then Char.ofNat (c.toNat + 32) else c

/-- Python `s.lower()` for ASCII strings. -/
def strLower (s : String) : String :=
  String.mk (s.data.map pyLowerChar)

/-- `listStartsWith l p` : `p` is an initial segment of `l`. -/
def listStartsWith : List Char → List Char → Bool
  | _, [] => true
  | [], _ :: _ => false
  | c :: cs, d :: ds => c = d && listStartsWith cs ds

/-- `listContainsSub l p` : `p` occurs contiguously inside `l`. -/
def listContainsSub : List Char → List Char → Bool
  | l, p =>
    match l with
    | [] => listStartsWith [] p
    | _ :: cs => listStartsWith l p || listContainsSub cs p

/-- Python substring test `pat in s`. -/
def containsSub (s pat : String) : Bool :=
  listContainsSub s.data pat.data

/-- Python `s.rstrip(';')`: remove all trailing semicolons. -/
def rstripSemis (s : String) : String :=
  String.mk (((s.data.reverse).dropWhile (fun c => c = ';')).reverse)

/-- The characters removed by Python `str.strip()` with no argument. -/
def pyIsSpace (c : Char) : Bool :=
  c = ' ' || c = '\t' || c = '\n' || c = '\r' || c = '\x0b' || c = '\x0c'

/-- Python `s.strip()`: remove leading and trailing whitespace. -/
def pyStrip (s : String) : String :=
  String.mk (((s.data.dropWhile pyIsSpace).reverse.dropWhile pyIsSpace).reverse)

/-! ### Python value universe, truthiness and `str()` -/

/-- JSON scalar values, the universe over which the request handlers in
`main.py` / `server.py` inspect their event dictionaries.  (Nested
arrays/objects can appear in a request but are never inspected beyond
truthiness by the code under verification, and are not needed by any
claim.) -/
inductive PyVal where
  | none : PyVal
  | bool : Bool → PyVal
  | int : Int → PyVal
  | str : String → PyVal
  deriving Repr, DecidableEq

/-- Python truthiness of a `PyVal`. -/
def truthy : PyVal → Bool
  | .none => false
  | .bool b => b
  | .int n => n ≠ 0
  | .str s => s ≠ ""

/-- Python `str(v)` on the scalar universe. -/
def pyStr : PyVal → String
  | .none => "None"
  | .bool true => "True"
  | .bool false => "False"
  | .int n => toString n
  | .str s => s

/-- Python `a or b`: `a` if truthy, else `b`. -/
def pyOr (a b : PyVal) : PyVal :=
  if truthy a then a else b

/-- A parsed JSON object / Lambda event dictionary. -/
abbrev Event := List (String × PyVal)

/-- Python `data.get(k)`: `None` when the key is absent. -/
def eventGet (data : Event) (k : String) : PyVal :=
  match data.lookup k with
  | Option.some v => v
  | Option.none => .none

/-- Python `data.get(k, d)`. -/
def eventGetD (data : Event) (k : String) (d : PyVal) : PyVal :=
  match data.lookup k with
  | Option.some v => v
  | Option.none => d

/-! ### C10: recommendation synthesis (`langgraph_workflow.py`,
`AnalyticsWorkflow._synthesize_results`, lines 536-544)

The final step of `_synthesize_results` walks the accumulated
recommendation list with a `seen` set, keeping an element iff it was not
seen before and its length exceeds 10, then truncates to 7 entries. -/

/-- The dedup-and-filter loop of `_synthesize_results`: `seen` is the set
(here a list) of recommendations already kept. -/
def uniqueRecsAux : List String → List String → List String
  | [], _ => []
  | r :: rest, seen =>
    if r ∉ seen ∧ r.length > 10 then
      r :: uniqueRecsAux rest (r :: seen)
    else
      uniqueRecsAux rest seen

/-- `state['recommendations'] = unique_recommendations[:7]`: the
recommendation list produced by the non-exception path of
`_synthesize_results`, as a function of the accumulated suggestions. -/
def synthRecommendations (recs : List String) : List String :=
  (uniqueRecsAux recs []).take 7

theorem uniqueRecsAux_sound (recs : List String) :
    ∀ seen : List String,
      (uniqueRecsAux recs seen).Nodup ∧
      ∀ r ∈ uniqueRecsAux recs seen, r ∉ seen ∧ r.length > 10 := by
  induction recs with
  | nil => intro seen; simp [uniqueRecsAux]
  | cons r rest ih =>
    intro seen
    by_cases h : r ∉ seen ∧ r.length > 10
    · have hrec := ih (r :: seen)
      refine ⟨?_, ?_⟩
      · simp only [uniqueRecsAux, if_pos h]
        refine List.nodup_cons.mpr ⟨?_, hrec.1⟩
        intro hmem
        exact ((hrec.2 r hmem).1) (List.mem_cons_self r seen)
      · intro x hx
        simp only [uniqueRecsAux, if_pos h] at hx
        rcases List.mem_cons.mp hx with hx | hx
        · exact hx ▸ h
        · have := hrec.2 x hx
          exact ⟨fun hxseen => this.1 (List.mem_cons_of_mem _ hxseen), this.2⟩
    · have hrec := ih seen
      constructor
      · simpa only [uniqueRecsAux, if_neg h] using hrec.1
      · intro x hx
        simp only [uniqueRecsAux, if_neg h] at hx
        exact hrec.2 x hx

/-- C10: every recommendation list produced by the non-exception path of
`_synthesize_results` has at most 7 entries, its entries are pairwise
distinct, and every entry is a string strictly longer than 10
characters. -/
theorem C10_recommendations_invariant (recs : List String) :
    (synthRecommendations recs).length ≤ 7 ∧
    (synthRecommendations recs).Nodup ∧
    ∀ r ∈ synthRecommendations recs, r.length > 10 := by
  have h := uniqueRecsAux_sound recs []
  refine ⟨?_, ?_, ?_⟩
  · exact le_trans (List.length_take_le 7 _) (le_refl _)
  · exact List.Nodup.sublist (List.take_sublist 7 _) h.1
  · intro r hr
    exact (h.2 r (List.mem_of_mem_take hr)).2

/-- Witness: evaluating the synthesis on a concrete list discharges the
membership hypothesis of `C10_recommendations_invariant`. -/
theorem C10_recommendations_invariant_witness :
    ("Analyze customer lifetime value and retention patterns" :
        String).length > 10 := by
  have h := C10_recommendations_invariant
    ["Analyze customer lifetime value and retention patterns",
     "Analyze customer lifetime value and retention patterns", "short"]
  exact h.2.2 _ (by decide)

/-! ### C7: module-level singleton accessors
(`database_integration.py` lines 919-927, `langgraph_workflow.py`
lines 851-859)

Both accessors read a module global, construct the instance on first
use, and return the cached instance afterwards.  Instances are
identified by a creation counter; the module state records the cached
instance (if any) and how many constructions have happened. -/

/-- Module state for `_db_integration`: the cached instance id, plus the
number of `DatabaseIntegration()` constructions performed so far. -/
structure DbModuleState where
  dbIntegration : Option Nat
  constructions : Nat
  deriving Repr, DecidableEq

/-- `get_database_integration`: construct on first call, then return the
cached instance. -/
def getDatabaseIntegration (s : DbModuleState) : Nat × DbModuleState :=
  match s.dbIntegration with
  | Option.some i => (i, s)
  | Option.none =>
      (s.constructions,
       { dbIntegration := Option.some s.constructions,
         constructions := s.constructions + 1 })

/-- Module state for `_workflow_instance` in `langgraph_workflow.py`. -/
structure WorkflowModuleState where
  workflowInstance : Option Nat
  constructions : Nat
  deriving Repr, DecidableEq

/-- `get_workflow`: construct on first call, then return the cached
instance. -/
def getWorkflow (s : WorkflowModuleState) : Nat × WorkflowModuleState :=
  match s.workflowInstance with
  | Option.some i => (i, s)
  | Option.none =>
      (s.constructions,
       { workflowInstance := Option.some s.constructions,
         constructions := s.constructions + 1 })

/-- Fresh process state for `database_integration.py` (`_db_integration
= None`). -/
def dbInit : DbModuleState := { dbIntegration := Option.none, constructions := 0 }

/-- Fresh process state for `langgraph_workflow.py` (`_workflow_instance
= None`). -/
def wfInit : WorkflowModuleState :=
  { workflowInstance := Option.none, constructions := 0 }

/-- `n` successive calls to `get_database_integration` from a given
state. -/
def dbCalls : Nat → DbModuleState → DbModuleState
  | 0, s => s
  | n + 1, s => dbCalls n (getDatabaseIntegration s).2

/-- `n` successive calls to `get_workflow` from a given state. -/
def wfCalls : Nat → WorkflowModuleState → WorkflowModuleState
  | 0, s => s
  | n + 1, s => wfCalls n (getWorkflow s).2

theorem dbCalls_fixed (n : Nat) (s : DbModuleState) :
    dbCalls n (getDatabaseIntegration s).2 = (getDatabaseIntegration s).2 := by
  induction n with
  | zero => rfl
  | succ n ih =>
    cases hs : s.dbIntegration with
    | some i =>
        simp only [dbCalls, getDatabaseIntegration, hs] at ih ⊢
        simpa [getDatabaseIntegration, hs] using ih
    | none =>
        simp only [dbCalls, getDatabaseIntegration, hs] at ih ⊢
        simpa [getDatabaseIntegration] using ih

theorem wfCalls_fixed (n : Nat) (s : WorkflowModuleState) :
    wfCalls n (getWorkflow s).2 = (getWorkflow s).2 := by
  induction n with
  | zero => rfl
  | succ n ih =>
    cases hs : s.workflowInstance with
    | some i =>
        simp only [wfCalls, getWorkflow, hs] at ih ⊢
        simpa [getWorkflow, hs] using ih
    | none =>
        simp only [wfCalls, getWorkflow, hs] at ih ⊢
        simpa [getWorkflow] using ih

/-- C7: both singleton accessors are idempotent.  From any state, a
second call to `get_database_integration` (resp. `get_workflow`)
returns exactly the instance the first call returned and leaves the
module state unchanged; and starting from a fresh process, any number of
calls performs at most one construction. -/
theorem C7_singleton_accessors (s : DbModuleState)
    (t : WorkflowModuleState) (n : Nat) :
    (getDatabaseIntegration (getDatabaseIntegration s).2
        = ((getDatabaseIntegration s).1, (getDatabaseIntegration s).2)) ∧
    (getWorkflow (getWorkflow t).2
        = ((getWorkflow t).1, (getWorkflow t).2)) ∧
    (dbCalls n dbInit).constructions ≤ 1 ∧
    (wfCalls n wfInit).constructions ≤ 1 := by
  refine ⟨?_, ?_, ?_, ?_⟩
  · cases hs : s.dbIntegration with
    | some i => simp [getDatabaseIntegration, hs]
    | none => simp [getDatabaseIntegration, hs]
  · cases ht : t.workflowInstance with
    | some i => simp [getWorkflow, ht]
    | none => simp [getWorkflow, ht]
  · cases n with
    | zero => simp [dbCalls, dbInit]
    | succ n =>
        have h := dbCalls_fixed n dbInit
        simp only [dbCalls, h]
        simp [getDatabaseIntegration, dbInit]
  · cases n with
    | zero => simp [wfCalls, wfInit]
    | succ n =>
        have h := wfCalls_fixed n wfInit
        simp only [wfCalls, h]
        simp [getWorkflow, wfInit]

/-! ### C1: the LangGraph workflow graph
(`langgraph_workflow.py`, `AnalyticsWorkflow._create_workflow`,
lines 67-105, and `process_query`, lines 804-849)

`_create_workflow` declares eight nodes, a chain of unconditional edges
(including `add_edge("data_processor", "result_synthesizer")`), and
additionally conditional edges out of `data_processor` routed by
`_should_handle_error` (which inspects whether `state['error']` is
truthy).  In LangGraph a conditional branch does not replace a static
edge from the same node: both fire, so after `data_processor` the next
superstep schedules the static target together with the router's
target.  Every node of this workflow returns the full state dictionary
and `AnalyticsState` is a plain `TypedDict` with no reducers, so a
superstep containing two distinct nodes makes the two parallel
full-state writes conflict and `invoke` raise; `process_query` wraps
`invoke` in try/except and reports the failure.  The executor below
embeds exactly that: frontiers of scheduled nodes, each node scheduled
at most once per superstep, and an `InvalidUpdateError` raised whenever
a frontier holds two or more nodes. -/

/-- The nodes added by `_create_workflow`. -/
inductive GNode where
  | query_analyzer | context_retriever | task_decomposer | mcp_enhancer
  | data_processor | result_synthesizer | memory_updater | error_handler
  deriving Repr, DecidableEq

/-- The unconditional edges declared with `workflow.add_edge`; `none` as
target stands for `END`. -/
def wfEdges : List (GNode × Option GNode) :=
  [(.query_analyzer, Option.some .context_retriever),
   (.context_retriever, Option.some .task_decomposer),
   (.task_decomposer, Option.some .mcp_enhancer),
   (.mcp_enhancer, Option.some .data_processor),
   (.data_processor, Option.some .result_synthesizer),
   (.result_synthesizer, Option.some .memory_updater),
   (.memory_updater, Option.none),
   (.error_handler, Option.none)]

/-- `_should_handle_error`: `"error" if state.get('error') else
"continue"`, where `hasError` is the truthiness of `state['error']`
after `data_processor` ran. -/
def shouldHandleError (hasError : Bool) : String :=
  if hasError then "error" else "continue"

/-- The conditional-edge mapping added on `data_processor`
(`{"error": "error_handler", "continue": "result_synthesizer"}`). -/
def dpConditionalEdges : List (String × GNode) :=
  [("error", .error_handler), ("continue", .result_synthesizer)]

/-- The target of the unconditional edge declared out of a node, if
any (`Option.none` for `END` and for `error_handler`'s edge to `END`). -/
def wfStaticNext (n : GNode) : Option GNode :=
  match wfEdges.lookup n with
  | Option.some t => t
  | Option.none => Option.none

/-- The successors scheduled after a node finishes: the static edge
target together with the conditional router's target for
`data_processor` — both fire. -/
def wfNext (hasError : Bool) (n : GNode) : List GNode :=
  (wfStaticNext n).toList ++
    (if n = .data_processor then
      (dpConditionalEdges.lookup (shouldHandleError hasError)).toList
    else [])

/-- A node is scheduled at most once per superstep (`seen` accumulates
the nodes already scheduled). -/
def dedupNodesAux : List GNode → List GNode → List GNode
  | [], _ => []
  | n :: rest, seen =>
      if n ∈ seen then dedupNodesAux rest seen
      else n :: dedupNodesAux rest (n :: seen)

/-- A node is scheduled at most once per superstep. -/
def dedupNodes (l : List GNode) : List GNode :=
  dedupNodesAux l []

/-- The superstep executor: a frontier with one node executes it and
schedules its successors; a frontier with two or more nodes means two
parallel full-state writes over the reducer-less `AnalyticsState`, so
`invoke` raises `InvalidUpdateError`; an empty frontier ends the run.
The result is the executed node sequence, or the raised error. -/
def wfRun (hasError : Bool) : Nat → List GNode → Except String (List GNode)
  | _, [] => Except.ok []
  | 0, _ :: _ => Except.error "recursion limit"
  | fuel + 1, [n] =>
      match wfRun hasError fuel (dedupNodes (wfNext hasError n)) with
      | Except.ok rest => Except.ok (n :: rest)
      | Except.error e => Except.error e
  | _ + 1, _ :: _ :: _ => Except.error "InvalidUpdateError"

/-- One workflow invocation (`self.workflow.invoke(initial_state)`),
from the entry point `query_analyzer`, as a function of whether an
error is flagged when `data_processor` finishes. -/
def wfInvoke (hasError : Bool) : Except String (List GNode) :=
  wfRun hasError 8 [.query_analyzer]

/-- The node order the claim describes. -/
def chainedOrder : List GNode :=
  [.query_analyzer, .context_retriever, .task_decomposer, .mcp_enhancer,
   .data_processor, .result_synthesizer, .memory_updater]

/-- `process_query` (lines 826-849): `invoke` inside try/except; on a
normal return `success = not bool(final_state.get('error'))`, and a
raised exception is caught and reported as `success = False`. -/
def processQuerySuccess (hasError : Bool) : Bool :=
  match wfInvoke hasError with
  | Except.ok _ => !hasError
  | Except.error _ => false

/-- C1 counterexample: when `data_processor` leaves a truthy
`state['error']`, the next superstep schedules `result_synthesizer`
(static edge) and `error_handler` (conditional edge) together, the
parallel full-state writes conflict, and `invoke` raises — so the run
does not execute the chained order ending after `memory_updater`. -/
theorem C1_counterexample :
    wfInvoke true = Except.error "InvalidUpdateError" ∧
    wfInvoke true ≠ Except.ok chainedOrder := by
  refine ⟨rfl, ?_⟩
  intro h
  have h2 : (Except.error "InvalidUpdateError" : Except String (List GNode))
      = Except.ok chainedOrder := h
  exact Except.noConfusion h2

/-- C1 (amended): a run with no error flagged after `data_processor`
executes exactly the chained order query_analyzer, context_retriever,
task_decomposer, mcp_enhancer, data_processor, result_synthesizer,
memory_updater and ends after `memory_updater`, and `process_query`
reports success; a run with an error flagged schedules
`result_synthesizer` and `error_handler` in the same superstep, whose
conflicting full-state writes make `invoke` raise `InvalidUpdateError`,
which `process_query` catches and reports as failure — so the chained
run to `memory_updater` happens exactly on error-free runs. -/
theorem C1_workflow_order :
    wfInvoke false = Except.ok chainedOrder ∧
    chainedOrder.getLast? = Option.some GNode.memory_updater ∧
    wfInvoke true = Except.error "InvalidUpdateError" ∧
    processQuerySuccess false = true ∧
    processQuerySuccess true = false := by
  exact ⟨rfl, rfl, rfl, rfl, rfl⟩

/-! ### C5: intent parsing and sample-analysis dispatch
(`analytics_engine.py`, `AnalyticsEngine._parse_query_intent` lines
236-295 and `AnalyticsEngine._generate_sample_analysis` lines
297-314) -/

/-- The intent dictionary built by `_parse_query_intent`. -/
structure QueryIntent where
  type : String
  metrics : List String
  time_period : Option String
  grouping : List String
  visualization : String
  deriving Repr, DecidableEq

/-- `_parse_query_intent`: keyword matching over the lowercased
query. -/
def parseQueryIntent (query : String) : QueryIntent :=
  let q := strLower query
  let base : QueryIntent :=
    { type := "general", metrics := [], time_period := Option.none,
      grouping := [], visualization := "auto" }
  let withType : QueryIntent :=
    if ["sales", "revenue", "profit", "income"].any (containsSub q ·) then
      { base with type := "sales_analysis",
                  metrics := ["revenue", "sales_count", "profit_margin"] }
    else if ["performance", "kpi", "metrics"].any (containsSub q ·) then
      { base with type := "performance_analysis",
                  metrics := ["performance_score", "efficiency", "growth_rate"] }
    else if ["trend", "time", "over time", "monthly", "quarterly"].any
        (containsSub q ·) then
      { base with type := "trend_analysis", visualization := "line_chart" }
    else if ["top", "best", "highest", "ranking"].any (containsSub q ·) then
      { base with type := "ranking_analysis", visualization := "bar_chart" }
    else if ["compare", "comparison", "vs", "versus"].any (containsSub q ·) then
      { base with type := "comparison_analysis",
                  visualization := "comparison_chart" }
    else base
  let withTime : QueryIntent :=
    if containsSub q "q1" || containsSub q "quarter 1" then
      { withType with time_period := Option.some "Q1" }
    else if containsSub q "q2" || containsSub q "quarter 2" then
      { withType with time_period := Option.some "Q2" }
    else if containsSub q "q3" || containsSub q "quarter 3" then
      { withType with time_period := Option.some "Q3" }
    else if containsSub q "q4" || containsSub q "quarter 4" then
      { withType with time_period := Option.some "Q4" }
    else if containsSub q "2024" then
      { withType with time_period := Option.some "2024" }
    else if containsSub q "2023" then
      { withType with time_period := Option.some "2023" }
    else withType
  let g0 : List String := []
  let g1 := if containsSub q "region" then g0 ++ ["region"] else g0
  let g2 := if containsSub q "product" then g1 ++ ["product"] else g1
  let g3 := if containsSub q "category" then g2 ++ ["category"] else g2
  let g4 := if containsSub q "month" then g3 ++ ["month"] else g3
  { withTime with grouping := g4 }

/-- The generator functions `_generate_sample_analysis` can dispatch
to. -/
inductive SampleGen where
  | sales | performance | trend | ranking | comparison | general
  deriving Repr, DecidableEq

/-- The generator chosen by `_generate_sample_analysis` for a given
`intent["type"]`. -/
def sampleAnalysisGenerator (ty : String) : SampleGen :=
  if ty = "sales_analysis" then .sales
  else if ty = "performance_analysis" then .performance
  else if ty = "trend_analysis" then .trend
  else if ty = "ranking_analysis" then .ranking
  else if ty = "comparison_analysis" then .comparison
  else .general

/-- The five generators the claim names. -/
def namedGenerators : List SampleGen :=
  [.sales, .performance, .trend, .ranking, .comparison]

/-- C5 counterexample: the query `"hello"` matches no keyword group, its
intent type is `"general"`, and `_generate_sample_analysis` dispatches
it to the general fallback generator, which is not one of the five
generators the claim names. -/
theorem C5_counterexample :
    (parseQueryIntent "hello").type = "general" ∧
    sampleAnalysisGenerator (parseQueryIntent "hello").type
      = SampleGen.general ∧
    SampleGen.general ∉ namedGenerators := by
  refine ⟨?_, ?_, ?_⟩ <;> decide

/-- C5 (amended): the keyword-based intent parser assigns every query
exactly one of six intent types, and `_generate_sample_analysis`
dispatches to one of the five named sample generators exactly when the
type is not the `"general"` fallback (which is sent to a sixth, general
generator). -/
theorem parseQueryIntent_type (query : String) :
    (parseQueryIntent query).type =
      (if ["sales", "revenue", "profit", "income"].any
          (containsSub (strLower query) ·) then "sales_analysis"
       else if ["performance", "kpi", "metrics"].any
          (containsSub (strLower query) ·) then "performance_analysis"
       else if ["trend", "time", "over time", "monthly", "quarterly"].any
          (containsSub (strLower query) ·) then "trend_analysis"
       else if ["top", "best", "highest", "ranking"].any
          (containsSub (strLower query) ·) then "ranking_analysis"
       else if ["compare", "comparison", "vs", "versus"].any
          (containsSub (strLower query) ·) then "comparison_analysis"
       else "general") := by
  unfold parseQueryIntent
  simp only [apply_ite QueryIntent.type, ite_self]

theorem C5_intent_dispatch (query : String) :
    (parseQueryIntent query).type ∈
      ["sales_analysis", "performance_analysis", "trend_analysis",
       "ranking_analysis", "comparison_analysis", "general"] ∧
    (sampleAnalysisGenerator (parseQueryIntent query).type ∈ namedGenerators
      ↔ (parseQueryIntent query).type ≠ "general") := by
  have ht := parseQueryIntent_type query
  repeat' split at ht
  all_goals rw [ht]
  all_goals decide

/-! ### C4: natural-language-to-SQL generation
(`database_integration.py`,
`DatabaseIntegration.generate_sql_from_natural_language`,
lines 679-834)

The function lowercases the query, walks an if/elif keyword chain that
assigns one of seven literal SQL texts (or leaves `sql_query` unset and
takes the default record-count query), and returns a result dictionary
with `success: True` and the stripped SQL.  The derived metadata fields
(`estimated_rows`, `complexity`, `tables_used`) are not needed by any
claim and are omitted from the embedded result record. -/

/-- SQL literal for the sales-by-region branch. -/
def sqlSalesByRegion : String :=
  "\n                    SELECT \n                        region,\n                        SUM(total_amount) as total_sales,\n                        COUNT(*) as transaction_count,\n                        AVG(total_amount) as avg_transaction_value\n                    FROM sales.transactions \n                    WHERE transaction_date >= CURRENT_DATE - INTERVAL \x2790 days\x27\n                    GROUP BY region \n                    ORDER BY total_sales DESC;\n                    "

/-- SQL literal for the monthly-sales branch. -/
def sqlSalesMonthly : String :=
  "\n                    SELECT \n                        DATE_TRUNC(\x27month\x27, transaction_date) as month,\n                        SUM(total_amount) as monthly_sales,\n                        COUNT(*) as transaction_count\n                    FROM sales.transactions \n                    WHERE transaction_date >= CURRENT_DATE - INTERVAL \x2712 months\x27\n                    GROUP BY DATE_TRUNC(\x27month\x27, transaction_date)\n                    ORDER BY month;\n                    "

/-- SQL literal for the top-products branch. -/
def sqlTopProducts : String :=
  "\n                    SELECT \n                        p.product_name,\n                        p.category,\n                        SUM(t.quantity) as total_quantity_sold,\n                        SUM(t.total_amount) as total_revenue\n                    FROM sales.transactions t\n                    JOIN public.products p ON t.product_id = p.product_id\n                    WHERE t.transaction_date >= CURRENT_DATE - INTERVAL \x2790 days\x27\n                    GROUP BY p.product_id, p.product_name, p.category\n                    ORDER BY total_revenue DESC\n                    LIMIT 10;\n                    "

/-- SQL literal for the general sales-overview branch. -/
def sqlSalesOverview : String :=
  "\n                    SELECT \n                        COUNT(*) as total_transactions,\n                        SUM(total_amount) as total_sales,\n                        AVG(total_amount) as avg_transaction_value,\n                        MIN(transaction_date) as earliest_transaction,\n                        MAX(transaction_date) as latest_transaction\n                    FROM sales.transactions;\n                    "

/-- SQL literal for the customer-segments branch. -/
def sqlCustomerSegments : String :=
  "\n                    SELECT \n                        customer_segment,\n                        COUNT(*) as customer_count,\n                        AVG(total_spent.amount) as avg_spending\n                    FROM public.customers c\n                    LEFT JOIN (\n                        SELECT customer_id, SUM(total_amount) as amount\n                        FROM sales.transactions\n                        GROUP BY customer_id\n                    ) total_spent ON c.customer_id = total_spent.customer_id\n                    GROUP BY customer_segment\n                    ORDER BY customer_count DESC;\n                    "

/-- SQL literal for the customer-overview branch. -/
def sqlCustomerOverview : String :=
  "\n                    SELECT \n                        COUNT(*) as total_customers,\n                        COUNT(CASE WHEN registration_date >= CURRENT_DATE - INTERVAL \x2730 days\x27 THEN 1 END) as new_customers_30d,\n                        customer_segment,\n                        COUNT(*) as segment_count\n                    FROM public.customers\n                    GROUP BY customer_segment\n                    ORDER BY segment_count DESC;\n                    "

/-- SQL literal for the product-analysis branch. -/
def sqlProductAnalysis : String :=
  "\n                SELECT \n                    category,\n                    COUNT(*) as product_count,\n                    AVG(price) as avg_price,\n                    MIN(price) as min_price,\n                    MAX(price) as max_price\n                FROM public.products\n                GROUP BY category\n                ORDER BY product_count DESC;\n                "

/-- SQL literal for the default record-count query taken when no
pattern matches. -/
def sqlDefaultOverview : String :=
  "\n                SELECT \n                    \x27sales\x27 as data_type,\n                    COUNT(*) as record_count\n                FROM sales.transactions\n                UNION ALL\n                SELECT \n                    \x27customers\x27 as data_type,\n                    COUNT(*) as record_count\n                FROM public.customers\n                UNION ALL\n                SELECT \n                    \x27products\x27 as data_type,\n                    COUNT(*) as record_count\n                FROM public.products;\n                "

/-- `any(term in query_lower for term in ['sales', 'revenue',
'transaction'])`. -/
def salesGroupMatch (q : String) : Bool :=
  ["sales", "revenue", "transaction"].any (containsSub q ·)

/-- `any(term in query_lower for term in ['customer', 'client'])`. -/
def customerGroupMatch (q : String) : Bool :=
  ["customer", "client"].any (containsSub q ·)

/-- `any(term in query_lower for term in ['product', 'inventory'])`. -/
def productGroupMatch (q : String) : Bool :=
  ["product", "inventory"].any (containsSub q ·)

/-- Whether any of the three keyword groups matches (i.e. `sql_query`
was assigned by the if/elif chain, so the default is not taken). -/
def sqlKeywordMatch (q : String) : Bool :=
  salesGroupMatch q || customerGroupMatch q || productGroupMatch q

/-- The result dictionary of `generate_sql_from_natural_language`,
restricted to the fields the claims mention. -/
structure SqlGenResult where
  success : Bool
  sql_query : String
  explanation : String
  deriving Repr, DecidableEq

/-- The SQL/explanation pair assigned by the if/elif chain of
`generate_sql_from_natural_language`, with `Option.none` standing for
the unset `sql_query = None` (no pattern matched). -/
def sqlChoice (q : String) : Option (String × String) :=
  if salesGroupMatch q then
    if containsSub q "by region" || containsSub q "region" then
      Option.some (sqlSalesByRegion,
        "Analyzing sales performance by region for the last 90 days")
    else if containsSub q "monthly" || containsSub q "month" then
      Option.some (sqlSalesMonthly,
        "Analyzing monthly sales trends for the last 12 months")
    else if containsSub q "top products" || containsSub q "best selling" then
      Option.some (sqlTopProducts,
        "Finding top 10 best-selling products by revenue in the last 90 days")
    else
      Option.some (sqlSalesOverview,
        "General sales overview and summary statistics")
  else if customerGroupMatch q then
    if containsSub q "segment" then
      Option.some (sqlCustomerSegments,
        "Analyzing customer segments and their spending patterns")
    else
      Option.some (sqlCustomerOverview,
        "Customer overview including new customer acquisition")
  else if productGroupMatch q then
    Option.some (sqlProductAnalysis,
      "Product analysis by category with pricing information")
  else Option.none

/-- The seven SQL/explanation pairs the if/elif chain can assign. -/
def sqlPairs : List (String × String) :=
  [(sqlSalesByRegion,
    "Analyzing sales performance by region for the last 90 days"),
   (sqlSalesMonthly,
    "Analyzing monthly sales trends for the last 12 months"),
   (sqlTopProducts,
    "Finding top 10 best-selling products by revenue in the last 90 days"),
   (sqlSalesOverview,
    "General sales overview and summary statistics"),
   (sqlCustomerSegments,
    "Analyzing customer segments and their spending patterns"),
   (sqlCustomerOverview,
    "Customer overview including new customer acquisition"),
   (sqlProductAnalysis,
    "Product analysis by category with pricing information")]

/-- `generate_sql_from_natural_language`: keyword matching on the
lowercased query, falling back to the default record-count query. -/
def generateSqlFromNaturalLanguage (query : String) : SqlGenResult :=
  match sqlChoice (strLower query) with
  | Option.some p =>
      { success := true, sql_query := pyStrip p.1, explanation := p.2 }
  | Option.none =>
      { success := true, sql_query := pyStrip sqlDefaultOverview,
        explanation := "General data overview showing record counts for main tables" }

theorem sqlChoice_cases (q : String) :
    sqlChoice q = Option.none ∨
      ∃ p ∈ sqlPairs, sqlChoice q = Option.some p := by
  unfold sqlChoice
  repeat' split
  all_goals simp [sqlPairs]

theorem sqlChoice_none_iff (q : String) :
    sqlChoice q = Option.none ↔ sqlKeywordMatch q = false := by
  unfold sqlChoice sqlKeywordMatch
  repeat' split
  all_goals simp_all

theorem sqlPairs_select :
    ∀ p ∈ sqlPairs,
      pyStrip p.1 ≠ "" ∧
      containsSub (strLower (pyStrip p.1)) "select" = true := by
  decide

theorem sqlDefault_select :
    pyStrip sqlDefaultOverview ≠ "" ∧
    containsSub (strLower (pyStrip sqlDefaultOverview)) "select" = true := by
  decide

/-- C4: for every query the generated result has `success = True`, a
non-empty SQL string containing `select` case-insensitively, and the
default record-count query is taken exactly when no keyword group
matches. -/
theorem C4_sql_generation (query : String) :
    (generateSqlFromNaturalLanguage query).success = true ∧
    (generateSqlFromNaturalLanguage query).sql_query ≠ "" ∧
    containsSub (strLower (generateSqlFromNaturalLanguage query).sql_query)
      "select" = true ∧
    (sqlKeywordMatch (strLower query) = false →
      (generateSqlFromNaturalLanguage query).sql_query
        = pyStrip sqlDefaultOverview) := by
  rcases sqlChoice_cases (strLower query) with h | ⟨p, hp, h⟩
  · have hres : generateSqlFromNaturalLanguage query =
        { success := true, sql_query := pyStrip sqlDefaultOverview,
          explanation := "General data overview showing record counts for main tables" } := by
      unfold generateSqlFromNaturalLanguage
      rw [h]
    rw [hres]
    exact ⟨rfl, sqlDefault_select.1, sqlDefault_select.2, fun _ => rfl⟩
  · have hres : generateSqlFromNaturalLanguage query =
        { success := true, sql_query := pyStrip p.1, explanation := p.2 } := by
      unfold generateSqlFromNaturalLanguage
      rw [h]
    rw [hres]
    refine ⟨rfl, (sqlPairs_select p hp).1, (sqlPairs_select p hp).2,
      fun hno => ?_⟩
    have hnone : sqlChoice (strLower query) = Option.none :=
      (sqlChoice_none_iff (strLower query)).mpr hno
    rw [h] at hnone
    cases hnone

/-- Witness: the query `"weather"` matches no keyword group, so
`C4_sql_generation` applies with its implication discharged, giving the
default record-count query. -/
theorem C4_sql_generation_witness :
    (generateSqlFromNaturalLanguage "weather").success = true ∧
    (generateSqlFromNaturalLanguage "weather").sql_query
      = pyStrip sqlDefaultOverview := by
  have h := C4_sql_generation "weather"
  exact ⟨h.1, h.2.2.2 (by decide)⟩

/-! ### C2, C6, C9: the HTTP handler and Lambda-style handlers
(`main.py` `AgentHandler.do_GET` lines 92-116, `AgentHandler.do_POST`
lines 118-162, `lambda_handler` lines 187-207; `server.py`
`lambda_handler` lines 33-73)

`process_analytics_query` (main.py lines 22-85) wraps its whole body in
try/except and returns `f"Error processing request: {e}"` on any
exception.  Its try-body consults the LangGraph workflow and formats the
reply; that body is modelled as an oracle `body : PyVal → Except String
String` giving either the formatted reply or the exception message. -/

/-- `process_analytics_query` of `main.py`: run the try-body, catch any
exception as an error-message string. -/
def processAnalyticsQueryMain (body : PyVal → Except String String)
    (input : PyVal) : String :=
  match body input with
  | Except.ok t => t
  | Except.error e => "Error processing request: " ++ e

/-- The input-extraction `or`-chain shared by `do_POST` (main.py lines
131-140) and both `lambda_handler`s: first six keys raw, then
`str(data.get("body", ""))`, then the literal default. -/
def extractPostInput (data : Event) : PyVal :=
  pyOr (eventGet data "inputText")
    (pyOr (eventGet data "input")
      (pyOr (eventGet data "query")
        (pyOr (eventGet data "message")
          (pyOr (eventGet data "prompt")
            (pyOr (eventGet data "payload")
              (pyOr (.str (pyStr (eventGetD data "body" (.str ""))))
                (.str "Hello World")))))))

/-- First truthy value of a list, as the claim reads the `or`-chain. -/
def firstTruthy : List PyVal → Option PyVal
  | [] => Option.none
  | v :: vs => if truthy v then Option.some v else firstTruthy vs

/-- The claim's reading of the extraction: the first truthy value among
the seven keys' raw values, defaulting to `"Hello World"`. -/
def claimExtractInput (data : Event) : PyVal :=
  match firstTruthy
      (["inputText", "input", "query", "message", "prompt", "payload",
        "body"].map (eventGet data)) with
  | Option.some v => v
  | Option.none => .str "Hello World"

/-- The amended reading: first truthy raw value among the first six
keys; otherwise the `str()` image of the body value (default `""`) when
that string is non-empty; otherwise `"Hello World"`. -/
def specExtractInput (data : Event) : PyVal :=
  match firstTruthy
      (["inputText", "input", "query", "message", "prompt",
        "payload"].map (eventGet data)) with
  | Option.some v => v
  | Option.none =>
      if pyStr (eventGetD data "body" (.str "")) ≠ "" then
        .str (pyStr (eventGetD data "body" (.str "")))
      else .str "Hello World"

theorem truthy_str (s : String) : truthy (PyVal.str s) = decide (s ≠ "") := by
  simp [truthy]

theorem extractPostInput_eq_spec (data : Event) :
    extractPostInput data = specExtractInput data := by
  unfold extractPostInput specExtractInput
  by_cases h1 : truthy (eventGet data "inputText") <;>
    by_cases h2 : truthy (eventGet data "input") <;>
    by_cases h3 : truthy (eventGet data "query") <;>
    by_cases h4 : truthy (eventGet data "message") <;>
    by_cases h5 : truthy (eventGet data "prompt") <;>
    by_cases h6 : truthy (eventGet data "payload") <;>
    simp [pyOr, firstTruthy, h1, h2, h3, h4, h5, h6, truthy_str]

/-- A Lambda event: a string, a dict, or anything else (which keeps the
initial `"Hello World"`). -/
inductive LambdaEvent where
  | str : String → LambdaEvent
  | dict : Event → LambdaEvent
  | other : LambdaEvent
  deriving Repr

/-- The `user_input` computed by the `isinstance` chain of
`lambda_handler` (identical in `main.py` and `server.py`). -/
def lambdaEventInput : LambdaEvent → PyVal
  | .str s => .str s
  | .dict d => extractPostInput d
  | .other => .str "Hello World"

/-- `lambda_handler` of `main.py`: extract the input and hand it to
`process_analytics_query`. -/
def lambdaHandlerMain (body : PyVal → Except String String)
    (event : LambdaEvent) : String :=
  processAnalyticsQueryMain body (lambdaEventInput event)

/-- `process_analytics_query` of `server.py`: a fixed formatted
reply. -/
def processAnalyticsQueryServer (input : PyVal) : String :=
  "Analytics Agent Response: I received your query \x27" ++ pyStr input ++
    "\x27. This is a working analytics agent ready to process your data analysis requests!"

/-- `lambda_handler` of `server.py` (its try-body is pure up to
logging, so no exception oracle is needed). -/
def lambdaHandlerServer (event : LambdaEvent) : String :=
  processAnalyticsQueryServer (lambdaEventInput event)

/-- C6 counterexample: the dict event `{"body": 0}` has no truthy value
under any of the seven keys, so the claim's extraction gives the default
`"Hello World"`; the code instead extracts `str(0) = "0"` because the
body value is passed through `str()` before the truthiness test. -/
theorem C6_counterexample :
    lambdaEventInput (LambdaEvent.dict [("body", PyVal.int 0)])
      = PyVal.str "0" ∧
    claimExtractInput [("body", PyVal.int 0)] = PyVal.str "Hello World" ∧
    PyVal.str "0" ≠ PyVal.str "Hello World" := by
  refine ⟨?_, ?_, ?_⟩ <;> decide

/-- C6 (amended): for every string or dict event, `lambda_handler`
returns a string; a string event is used directly; a dict event's input
is the first truthy raw value among inputText, input, query, message,
prompt, payload, else the `str()` image of body when non-empty, else
`"Hello World"`; and when the processing body raises, the handler
returns the error-message string instead of propagating. -/
theorem C6_lambda_handler :
    (∀ s, lambdaEventInput (LambdaEvent.str s) = PyVal.str s) ∧
    (∀ d, lambdaEventInput (LambdaEvent.dict d) = specExtractInput d) ∧
    (∀ (body : PyVal → Except String String) (event : LambdaEvent)
        (e : String), body (lambdaEventInput event) = Except.error e →
      lambdaHandlerMain body event = "Error processing request: " ++ e) ∧
    (∀ (body : PyVal → Except String String) (event : LambdaEvent)
        (t : String), body (lambdaEventInput event) = Except.ok t →
      lambdaHandlerMain body event = t) := by
  refine ⟨fun s => rfl, fun d => extractPostInput_eq_spec d, ?_, ?_⟩
  · intro body event e he
    unfold lambdaHandlerMain processAnalyticsQueryMain
    rw [he]
  · intro body event t ht
    unfold lambdaHandlerMain processAnalyticsQueryMain
    rw [ht]

/-- Witness: a processing body that raises makes the handler return the
error-message string, by `C6_lambda_handler` at a concrete event. -/
theorem C6_lambda_handler_witness :
    lambdaHandlerMain (fun _ => Except.error "boom")
      (LambdaEvent.str "hi") = "Error processing request: boom" :=
  C6_lambda_handler.2.2.1 (fun _ => Except.error "boom")
    (LambdaEvent.str "hi") "boom" rfl

/-! HTTP handler models.  `do_GET` works on the parse-result of
`urlparse`/`parse_qs` (path and query parameters); `do_POST` works on
the parse-result of its body (`json.loads` giving an object, giving a
non-object, or failing so the body is treated as plain text).
`parse_qs` never produces an empty value list, so `List.headD ""` on a
present key is exact. -/

/-- `query_params.get(k, default)`. -/
def qparamGetD (params : List (String × List String)) (k : String)
    (d : List String) : List String :=
  match params.lookup k with
  | Option.some vs => vs
  | Option.none => d

/-- `query_params.get('query', ['Hello World'])[0]`. -/
def doGetUserInput (params : List (String × List String)) : String :=
  (qparamGetD params "query" ["Hello World"]).headD ""

/-- `query_params.get(k, [None])[0]` for `session_id` / `user_id`. -/
def doGetOptParam (params : List (String × List String)) (k : String) :
    PyVal :=
  match params.lookup k with
  | Option.some vs =>
      match vs.head? with
      | Option.some s => .str s
      | Option.none => .none
  | Option.none => .none

/-- An HTTP response: status code and body text. -/
structure HttpResponse where
  status : Nat
  body : String
  deriving Repr, DecidableEq

/-- `AgentHandler.do_GET`: `/health` short-circuits to `200 OK`, every
other path processes the `query` parameter. -/
def doGET (proc : PyVal → PyVal → PyVal → String) (path : String)
    (params : List (String × List String)) : HttpResponse :=
  if path = "/health" then { status := 200, body := "OK" }
  else
    { status := 200,
      body := proc (.str (doGetUserInput params))
        (doGetOptParam params "session_id") (doGetOptParam params "user_id") }

/-- The parse outcome of a POST body: a JSON object, JSON that is not an
object (on which `data.get` raises and the outer handler answers 500),
or non-JSON text. -/
inductive PostBody where
  | jsonObject : Event → PostBody
  | jsonOther : PostBody
  | text : String → PostBody

/-- `AgentHandler.do_POST`; `excMsg` is the message of the exception
raised in the non-object case. -/
def doPOST (proc : PyVal → PyVal → PyVal → String) (excMsg : String) :
    PostBody → HttpResponse
  | .jsonObject data =>
      { status := 200,
        body := proc (extractPostInput data) (eventGet data "session_id")
          (eventGet data "user_id") }
  | .jsonOther =>
      { status := 500, body := "Error processing request: " ++ excMsg }
  | .text s =>
      { status := 200,
        body := proc (if s ≠ "" then .str s else .str "Hello World")
          .none .none }

/-- C2 counterexample: a GET request on `/` carrying its input under the
key `message` is not accepted: the handler processes the default
`"Hello World"` instead of `"hi"`, because `do_GET` only reads the
`query` parameter. -/
theorem C2_counterexample :
    doGET (fun i _ _ => pyStr i) "/" [("message", ["hi"])]
      = { status := 200, body := "Hello World" } ∧
    "Hello World" ≠ "hi" := by
  refine ⟨?_, ?_⟩ <;> decide

/-- C2 (amended): `GET /health` answers `200` with body `OK`; a GET on
any other path answers `200`, taking the user input only from the
`query` parameter (default `"Hello World"`) with optional `session_id`
and `user_id`; a POST whose body is a JSON object answers `200`, taking
the input from the first truthy of inputText, input, query, message,
prompt, payload, then the non-empty `str()` of body, defaulting to
`"Hello World"`, with optional `session_id` and `user_id`; a POST whose
body is not JSON answers `200` processing the raw text (default
`"Hello World"` when empty). -/
theorem C2_http_interface (proc : PyVal → PyVal → PyVal → String)
    (path : String) (params : List (String × List String)) (data : Event)
    (s excMsg : String) :
    doGET proc "/health" params = { status := 200, body := "OK" } ∧
    (path ≠ "/health" →
      doGET proc path params =
        { status := 200,
          body := proc (.str (doGetUserInput params))
            (doGetOptParam params "session_id")
            (doGetOptParam params "user_id") }) ∧
    doPOST proc excMsg (.jsonObject data) =
      { status := 200,
        body := proc (specExtractInput data) (eventGet data "session_id")
          (eventGet data "user_id") } ∧
    (doPOST proc excMsg (.text s)).status = 200 := by
  refine ⟨?_, ?_, ?_, ?_⟩
  · unfold doGET
    simp
  · intro hpath
    unfold doGET
    simp [hpath]
  · unfold doPOST
    dsimp only
    rw [extractPostInput_eq_spec]
  · rfl

/-- Witness for `C2_http_interface` at concrete requests, discharging
the path hypothesis. -/
theorem C2_http_interface_witness :
    doGET (fun i _ _ => pyStr i) "/" [("query", ["show sales"])]
      = { status := 200, body := "show sales" } := by
  have h := C2_http_interface (fun i _ _ => pyStr i) "/"
    [("query", ["show sales"])] [] "" ""
  rw [h.2.1 (by decide)]
  decide

/-- C9 counterexample: a POST body `{"body": null}` has every one of the
seven keys absent or falsy, yet the extracted input is `str(None) =
"None"`, not the default `"Hello World"`. -/
theorem C9_counterexample :
    (["inputText", "input", "query", "message", "prompt", "payload",
        "body"].all
      (fun k => !(truthy (eventGet [("body", PyVal.none)] k)))) = true ∧
    extractPostInput [("body", PyVal.none)] = PyVal.str "None" ∧
    PyVal.str "None" ≠ PyVal.str "Hello World" := by
  refine ⟨?_, ?_, ?_⟩ <;> decide

/-- C9 (amended): if the six keys inputText, input, query, message,
prompt, payload are all absent or falsy and the body value is absent or
has an empty `str()` image (i.e. body is absent or the empty string),
the extracted POST input is `"Hello World"`; and a GET on `/` without a
`query` parameter likewise processes `"Hello World"`. -/
theorem C9_default_input (data : Event)
    (params : List (String × List String))
    (hkeys : ∀ k ∈ ["inputText", "input", "query", "message", "prompt",
        "payload"], truthy (eventGet data k) = false)
    (hbody : pyStr (eventGetD data "body" (.str "")) = "")
    (hq : params.lookup "query" = Option.none) :
    extractPostInput data = PyVal.str "Hello World" ∧
    doGetUserInput params = "Hello World" := by
  constructor
  · have h1 := hkeys "inputText" (by decide)
    have h2 := hkeys "input" (by decide)
    have h3 := hkeys "query" (by decide)
    have h4 := hkeys "message" (by decide)
    have h5 := hkeys "prompt" (by decide)
    have h6 := hkeys "payload" (by decide)
    unfold extractPostInput
    simp [pyOr, h1, h2, h3, h4, h5, h6, truthy_str, hbody]
  · unfold doGetUserInput qparamGetD
    rw [hq]
    rfl

/-- Witness: `C9_default_input` applied to the empty POST object and a
parameter list without `query`. -/
theorem C9_default_input_witness :
    extractPostInput ([] : Event) = PyVal.str "Hello World" ∧
    doGetUserInput [("user_id", ["u1"])] = "Hello World" :=
  C9_default_input [] [("user_id", ["u1"])]
    (fun _ _ => rfl) (by decide) (by decide)

/-! ### C8: `execute_query` row-limit enforcement
(`database_integration.py`, `DatabaseIntegration.execute_query` and its
three mode helpers, lines 537-677)

The limit-appending lines are identical in `_execute_query_real` (lines
566-567) and `_execute_query_sqlalchemy` (lines 604-605):
`if 'limit' not in sql_query.lower() and limit:` then
`sql_query = f"{sql_query.rstrip(';')} LIMIT {limit}"`.  The simulated
mode picks a canned dataset from keywords and truncates with pandas
`df.head(limit)` when `len(df) > limit`. -/

/-- The SQL text actually executed by the real/SQLAlchemy modes: the
limit clause is appended only when `'limit'` does not occur in the
lowercased text and `limit` is truthy (non-zero). -/
def addLimitClause (sql : String) (limit : Int) : String :=
  if !containsSub (strLower sql) "limit" && limit ≠ 0 then
    rstripSemis sql ++ " LIMIT " ++ toString limit
  else sql

/-- The claim's reading: appended to the SQL text if and only if the
lowercased text does not contain `'limit'`. -/
def claimAddLimitClause (sql : String) (limit : Int) : String :=
  if !containsSub (strLower sql) "limit" then
    sql ++ " LIMIT " ++ toString limit
  else sql

/-- A cell value of the simulated result rows. -/
inductive SimVal where
  | i : Int → SimVal
  | f : Float → SimVal
  | s : String → SimVal
  deriving Repr

/-- A simulated result row. -/
abbrev SimRow := List (String × SimVal)

/-- The canned dataset `_execute_query_simulated` picks from the query
text. -/
def simulatedRows (sql : String) : List SimRow :=
  let q := strLower sql
  if containsSub q "sales.transactions" then
    if containsSub q "region" then
      [[("region", .s "North"), ("total_sales", .f 1250000.50),
        ("transaction_count", .i 5200), ("avg_transaction_value", .f 240.38)],
       [("region", .s "South"), ("total_sales", .f 980000.25),
        ("transaction_count", .i 4100), ("avg_transaction_value", .f 239.02)],
       [("region", .s "East"), ("total_sales", .f 1100000.75),
        ("transaction_count", .i 4800), ("avg_transaction_value", .f 229.17)],
       [("region", .s "West"), ("total_sales", .f 1350000.00),
        ("transaction_count", .i 5500), ("avg_transaction_value", .f 245.45)]]
    else if containsSub q "month" then
      [[("month", .s "2024-01-01"), ("monthly_sales", .f 400000.00),
        ("transaction_count", .i 1800)],
       [("month", .s "2024-02-01"), ("monthly_sales", .f 420000.00),
        ("transaction_count", .i 1900)],
       [("month", .s "2024-03-01"), ("monthly_sales", .f 450000.00),
        ("transaction_count", .i 2000)],
       [("month", .s "2024-04-01"), ("monthly_sales", .f 480000.00),
        ("transaction_count", .i 2100)],
       [("month", .s "2024-05-01"), ("monthly_sales", .f 510000.00),
        ("transaction_count", .i 2200)]]
    else
      [[("total_transactions", .i 25000), ("total_sales", .f 4680000.50),
        ("avg_transaction_value", .f 187.20)]]
  else
    [[("data_type", .s "simulated"), ("record_count", .i 1000)]]

/-- pandas `df.head(n)`: first `n` rows for `n ≥ 0`, all but the last
`|n|` rows for negative `n`. -/
def pdHead (n : Int) (rows : List SimRow) : List SimRow :=
  if 0 ≤ n then rows.take n.toNat
  else rows.take (rows.length - (-n).toNat)

/-- The fields of the `execute_query` result dictionaries the claims
mention (`execution_time_ms` and `columns` are timing/presentation
metadata and are omitted). -/
structure QueryResult where
  success : Bool
  data : List SimRow
  row_count : Nat
  query_method : String
  message : String

/-- `_execute_query_simulated`: pick a canned dataset, truncate when it
exceeds the limit, and report `row_count = len(df)`. -/
def executeQuerySimulated (sql : String) (limit : Int) : QueryResult :=
  let rows := simulatedRows sql
  let rows2 := if (rows.length : Int) > limit then pdHead limit rows else rows
  { success := true, data := rows2, row_count := rows2.length,
    query_method := "simulated",
    message := "Query simulated successfully, returned " ++
      toString rows2.length ++ " rows" }

/-- The result dictionary `_execute_query_real` builds from the rows the
cursor fetched (the fetch itself is an external effect, passed in). -/
def executeQueryReal (fetched : List SimRow) : QueryResult :=
  { success := true, data := fetched, row_count := fetched.length,
    query_method := "psycopg2",
    message := "Query executed successfully, returned " ++
      toString fetched.length ++ " rows" }

/-- C8 counterexample: with `limit = 0` (falsy in Python) and the query
`"SELECT 1"`, whose lowercased text does not contain `'limit'`, the code
executes the SQL unmodified while the claim's if-and-only-if demands the
clause `' LIMIT 0'` be appended. -/
theorem C8_counterexample :
    containsSub (strLower "SELECT 1") "limit" = false ∧
    addLimitClause "SELECT 1" 0 = "SELECT 1" ∧
    claimAddLimitClause "SELECT 1" 0 = "SELECT 1 LIMIT 0" ∧
    ("SELECT 1" : String) ≠ "SELECT 1 LIMIT 0" := by
  refine ⟨?_, ?_, ?_, ?_⟩ <;> decide

/-- C8 (amended): in the real and SQLAlchemy modes the clause
`' LIMIT {limit}'` is appended (to the SQL with trailing semicolons
stripped) if and only if the lowercased text does not contain `'limit'`
AND `limit` is truthy (non-zero); in simulated mode the returned data
has at most `limit` rows whenever `limit ≥ 0`; and `row_count` equals
the length of the returned data in both the simulated and the real
result. -/
theorem C8_limit_enforcement (sql : String) (limit : Int)
    (fetched : List SimRow) :
    (containsSub (strLower sql) "limit" = false → limit ≠ 0 →
      addLimitClause sql limit
        = rstripSemis sql ++ " LIMIT " ++ toString limit) ∧
    (containsSub (strLower sql) "limit" = true ∨ limit = 0 →
      addLimitClause sql limit = sql) ∧
    (0 ≤ limit →
      ((executeQuerySimulated sql limit).data.length : Int) ≤ limit) ∧
    (executeQuerySimulated sql limit).row_count
      = (executeQuerySimulated sql limit).data.length ∧
    (executeQueryReal fetched).row_count
      = (executeQueryReal fetched).data.length := by
  refine ⟨?_, ?_, ?_, rfl, rfl⟩
  · intro hnc hnz
    unfold addLimitClause
    simp [hnc, hnz]
  · intro h
    unfold addLimitClause
    rcases h with h | h
    · simp [h]
    · simp [h]
  · intro hlim
    unfold executeQuerySimulated
    by_cases h : ((simulatedRows sql).length : Int) > limit
    · simp only [h, if_true]
      simp only [pdHead, hlim, if_true, List.length_take]
      omega
    · simp only [h, if_false]
      omega

/-- Witness for `C8_limit_enforcement` at a concrete query and limit,
discharging each hypothesis. -/
theorem C8_limit_enforcement_witness :
    addLimitClause "SELECT * FROM sales.transactions;" 2
      = "SELECT * FROM sales.transactions LIMIT 2" ∧
    ((executeQuerySimulated "SELECT * FROM sales.transactions" 2).data.length
      : Int) ≤ 2 := by
  have h := C8_limit_enforcement "SELECT * FROM sales.transactions;" 2 []
  have h2 := C8_limit_enforcement "SELECT * FROM sales.transactions" 2 []
  refine ⟨?_, h2.2.2.1 (by decide)⟩
  have := h.1 (by decide) (by decide)
  rw [this]
  decide

/-! ### C3: gateway operations and their fallbacks
(`agentcore_gateway_integration.py`, `AgentCoreGateway.execute_rest_call`
lines 83-155, `execute_database_query` lines 157-207, `access_s3_data`
lines 209-280)

Each operation checks `is_available()`, invokes the gateway, and on
unavailability or any exception returns the corresponding `_fallback_*`
dictionary.  External outcomes are oracle parameters: `invokeResult` is
the parsed `responseData` of a successful `invoke_gateway` (with
`Option.none` for a raised exception), and each fallback receives the
outcome of its own external call. -/

/-- A value stored in a gateway result dictionary (payloads the code
never inspects are passed in as parameters of this type). -/
inductive GVal where
  | vB : Bool → GVal
  | vI : Int → GVal
  | vS : String → GVal
  deriving Repr, DecidableEq

/-- A gateway result dictionary. -/
abbrev GDict := List (String × GVal)

/-- Python `d[k] = v` on a dict: overwrite in place or append. -/
def dictSet (d : GDict) (k : String) (v : GVal) : GDict :=
  if (d.lookup k).isSome then
    d.map (fun kv => if kv.1 = k then (k, v) else kv)
  else d ++ [(k, v)]

/-- The key list of a result dictionary. -/
def keysOf (d : GDict) : List String := d.map Prod.fst

/-- The simulated endpoint mapping of `_fallback_rest_call`. -/
def endpointUrls : List (String × String) :=
  [("market-data-api", "https://api.marketdata.com/v1"),
   ("weather-api", "https://api.weather.com/v1")]

/-- `_fallback_rest_call`: unknown endpoint, successful HTTP request
(`httpResult` = status code and parsed body), or raised request
(`httpError` = `str(e)`). -/
def fallbackRestCall (endpointName : String)
    (httpResult : Option (Int × GVal)) (httpError : String) : GDict :=
  match endpointUrls.lookup endpointName with
  | Option.none =>
      [("error", .vS ("Unknown endpoint: " ++ endpointName)),
       ("success", .vB false), ("gateway_used", .vB false)]
  | Option.some _ =>
      match httpResult with
      | Option.some r =>
          [("status_code", .vI r.1), ("data", r.2),
           ("success", .vB (r.1 < 400)), ("gateway_used", .vB false)]
      | Option.none =>
          [("error", .vS httpError), ("success", .vB false),
           ("gateway_used", .vB false)]

/-- `execute_rest_call`: gateway path on success (tagging the parsed
response with `gateway_used = True`), fallback otherwise. -/
def executeRestCall (available : Bool) (invokeResult : Option GDict)
    (endpointName : String) (httpResult : Option (Int × GVal))
    (httpError : String) : GDict :=
  if !available then fallbackRestCall endpointName httpResult httpError
  else
    match invokeResult with
    | Option.some d => dictSet d "gateway_used" (.vB true)
    | Option.none => fallbackRestCall endpointName httpResult httpError

/-- `_fallback_database_query`: wrap the local `execute_query` result
(`dbResult`, `Option.none` when it raised with message `dbError`). -/
def fallbackDatabaseQuery (connectionName : String) (dbResult : Option GVal)
    (dbError : String) : GDict :=
  match dbResult with
  | Option.some r =>
      [("data", r), ("success", .vB true), ("gateway_used", .vB false),
       ("connection", .vS connectionName)]
  | Option.none =>
      [("error", .vS dbError), ("success", .vB false),
       ("gateway_used", .vB false), ("connection", .vS connectionName)]

/-- `execute_database_query`. -/
def executeDatabaseQuery (available : Bool) (invokeResult : Option GDict)
    (connectionName : String) (dbResult : Option GVal) (dbError : String) :
    GDict :=
  if !available then fallbackDatabaseQuery connectionName dbResult dbError
  else
    match invokeResult with
    | Option.some d => dictSet d "gateway_used" (.vB true)
    | Option.none => fallbackDatabaseQuery connectionName dbResult dbError

/-- ASCII uppercase of one character (Python `str.upper` on the ASCII
operation names used here). -/
def pyUpperChar (c : Char) : Char :=
  if 'a' ≤ c ∧ c ≤ 'z' then Char.ofNat (c.toNat - 32) else c

/-- Python `s.upper()` for ASCII strings. -/
def strUpper (s : String) : String :=
  String.mk (s.data.map pyUpperChar)

/-- `_fallback_s3_access`: branch on `operation.upper()`; `s3Exc` is the
message raised by the boto3 S3 client (the whole body is wrapped in one
try/except), `s3Data` the payload read for GET / LIST. -/
def fallbackS3Access (operation : String) (s3Exc : Option String)
    (s3Data : GVal) : GDict :=
  match s3Exc with
  | Option.some e =>
      [("error", .vS e), ("success", .vB false), ("gateway_used", .vB false)]
  | Option.none =>
      if strUpper operation = "GET" then
        [("data", s3Data), ("success", .vB true), ("gateway_used", .vB false)]
      else if strUpper operation = "PUT" then
        [("success", .vB true), ("gateway_used", .vB false)]
      else if strUpper operation = "LIST" then
        [("objects", s3Data), ("success", .vB true),
         ("gateway_used", .vB false)]
      else
        [("error", .vS ("Unsupported operation: " ++ operation)),
         ("success", .vB false), ("gateway_used", .vB false)]

/-- `access_s3_data`. -/
def accessS3Data (available : Bool) (invokeResult : Option GDict)
    (operation : String) (s3Exc : Option String) (s3Data : GVal) : GDict :=
  if !available then fallbackS3Access operation s3Exc s3Data
  else
    match invokeResult with
    | Option.some d => dictSet d "gateway_used" (.vB true)
    | Option.none => fallbackS3Access operation s3Exc s3Data

/-- A dictionary marked as a fallback: boolean `gateway_used = False`
plus a boolean `success` key. -/
def hasFallbackFlags (d : GDict) : Prop :=
  d.lookup "gateway_used" = Option.some (GVal.vB false) ∧
  ∃ b, d.lookup "success" = Option.some (GVal.vB b)

/-- C3 counterexample: with the gateway unavailable and the local
database call succeeding, `execute_database_query` returns the keys
`data, success, gateway_used, connection`, while the success-case
response (gateway available, `responseData` parsing to `{"data": ...}`)
carries `data, gateway_used`; the fallback key `connection` is neither a
success-case key nor one of the flags `gateway_used`, `fallback`,
`success`, so the fallback does not carry the same keys as the success
case plus a marker flag. -/
theorem C3_counterexample :
    keysOf (executeDatabaseQuery false
        (Option.some [("data", GVal.vS "rows")]) "analytics-postgres"
        (Option.some (GVal.vS "rows")) "")
      = ["data", "success", "gateway_used", "connection"] ∧
    keysOf (executeDatabaseQuery true
        (Option.some [("data", GVal.vS "rows")]) "analytics-postgres"
        (Option.some (GVal.vS "rows")) "")
      = ["data", "gateway_used"] ∧
    "connection" ∉
      (["data", "gateway_used"] ++ ["gateway_used", "fallback", "success"]) := by
  refine ⟨?_, ?_, ?_⟩ <;> decide

theorem fallbackRestCall_flags (endpointName : String)
    (httpResult : Option (Int × GVal)) (httpError : String) :
    hasFallbackFlags (fallbackRestCall endpointName httpResult httpError) := by
  unfold fallbackRestCall hasFallbackFlags
  cases endpointUrls.lookup endpointName with
  | none => exact ⟨by simp [List.lookup], false, by simp [List.lookup]⟩
  | some u =>
      cases httpResult with
      | none => exact ⟨by simp [List.lookup], false, by simp [List.lookup]⟩
      | some r =>
          exact ⟨by simp [List.lookup], r.1 < 400, by simp [List.lookup]⟩

theorem fallbackDatabaseQuery_flags (connectionName : String)
    (dbResult : Option GVal) (dbError : String) :
    hasFallbackFlags (fallbackDatabaseQuery connectionName dbResult dbError) := by
  unfold fallbackDatabaseQuery hasFallbackFlags
  cases dbResult with
  | none => exact ⟨by simp [List.lookup], false, by simp [List.lookup]⟩
  | some r => exact ⟨by simp [List.lookup], true, by simp [List.lookup]⟩

theorem fallbackS3Access_flags (operation : String) (s3Exc : Option String)
    (s3Data : GVal) :
    hasFallbackFlags (fallbackS3Access operation s3Exc s3Data) := by
  unfold fallbackS3Access hasFallbackFlags
  cases s3Exc with
  | some e => exact ⟨by simp [List.lookup], false, by simp [List.lookup]⟩
  | none =>
      by_cases hget : strUpper operation = "GET"
      · simp only [hget, if_true]
        exact ⟨by simp [List.lookup], true, by simp [List.lookup]⟩
      · by_cases hput : strUpper operation = "PUT"
        · simp only [hget, if_false, hput, if_true]
          exact ⟨by simp [List.lookup], true, by simp [List.lookup]⟩
        · by_cases hlist : strUpper operation = "LIST"
          · simp only [hget, hput, if_false, hlist, if_true]
            exact ⟨by simp [List.lookup], true, by simp [List.lookup]⟩
          · simp only [hget, hput, hlist, if_false]
            exact ⟨by simp [List.lookup], false, by simp [List.lookup]⟩

/-- C3 (amended): whenever the gateway is unavailable or the gateway
call fails, each of the three operations returns (rather than raises)
its fallback dictionary, which always carries the boolean marker
`gateway_used = False` together with a boolean `success` key; the
remaining keys follow the outcome of the fallback's own call and may
differ from the success-case keys (e.g. `error` in place of `data`, or
an extra `connection`). -/
theorem C3_fallback_flags (available : Bool) (invokeResult : Option GDict)
    (endpointName : String) (httpResult : Option (Int × GVal))
    (httpError connectionName : String) (dbResult : Option GVal)
    (dbError operation : String) (s3Exc : Option String) (s3Data : GVal)
    (hfb : available = false ∨ invokeResult = Option.none) :
    hasFallbackFlags
      (executeRestCall available invokeResult endpointName httpResult
        httpError) ∧
    hasFallbackFlags
      (executeDatabaseQuery available invokeResult connectionName dbResult
        dbError) ∧
    hasFallbackFlags
      (accessS3Data available invokeResult operation s3Exc s3Data) := by
  have hr : executeRestCall available invokeResult endpointName httpResult
      httpError = fallbackRestCall endpointName httpResult httpError := by
    rcases hfb with h | h
    · simp [executeRestCall, h]
    · cases available <;> simp [executeRestCall, h]
  have hd : executeDatabaseQuery available invokeResult connectionName
      dbResult dbError = fallbackDatabaseQuery connectionName dbResult
      dbError := by
    rcases hfb with h | h
    · simp [executeDatabaseQuery, h]
    · cases available <;> simp [executeDatabaseQuery, h]
  have hs : accessS3Data available invokeResult operation s3Exc s3Data
      = fallbackS3Access operation s3Exc s3Data := by
    rcases hfb with h | h
    · simp [accessS3Data, h]
    · cases available <;> simp [accessS3Data, h]
  rw [hr, hd, hs]
  exact ⟨fallbackRestCall_flags _ _ _, fallbackDatabaseQuery_flags _ _ _,
    fallbackS3Access_flags _ _ _⟩

/-- Witness: `C3_fallback_flags` at a concrete unavailable-gateway
environment. -/
theorem C3_fallback_flags_witness :
    (executeRestCall false Option.none "nope" Option.none "err").lookup
      "gateway_used" = Option.some (GVal.vB false) :=
  ((C3_fallback_flags false Option.none "nope" Option.none "err" "conn"
    Option.none "dberr" "GET" Option.none (GVal.vS "")) (Or.inl rfl)).1.1

end AwsDemo
